import Mathlib

/-!
Shallow embedding of `src/scripts/finetune.py` (repository agora-mlops)
and verification of the frozen claims about it.

The script is configuration plumbing around external ML libraries.  We
embed its pure parts (the two config builders, the checkpoint glob, the
stub preprocessor) as Lean functions, and its Python-level behaviour
(name binding and shadowing of top-level `def`s, name resolution at the
checkpoint scan, the chained assignment in the training-arguments class
body, the call on a non-callable attribute) as small explicit semantics
over lists and `Except`.
-/

namespace Finetune

/-- The torch dtypes the script mentions (`torch.float16` is the default
compute dtype in `QuanitzationArguments`). -/
inductive TorchDtype
  | float16
  | float32
  | bfloat16
deriving DecidableEq, Repr

/-- Python runtime values relevant to this script: strings, dtypes,
booleans, `None`, and (for the call semantics) functions, modelled by
the value they would return. -/
inductive PyVal
  | str (s : String)
  | dtype (d : TorchDtype)
  | bool (b : Bool)
  | none
  | func (result : PyVal)
deriving DecidableEq, Repr

/-- Python errors relevant to this script. -/
inductive PyErr
  | nameError (n : String)
  | typeError (msg : String)
deriving DecidableEq, Repr

/-- Record `QuanitzationArguments` (sic, the source's spelling), lines 62-80:
a flat record with the declared defaults. -/
structure QuanitzationArguments where
  load_in_4bit : Bool := true
  bnb_4bit_compute_dtype : TorchDtype := TorchDtype.float16
  bnb_4bit_quant_type : String := "nf4"
  use_nested_quant : Bool := false
deriving DecidableEq, Repr

/-- Modelled from the spec: the external `BitsAndBytesConfig`
constructor (the script only parameterizes it).  Fields the caller does
not pass keep the external defaults; in particular the nested-quant
flag defaults to off.  The quant-type field is a `PyVal` because the
script may pass it a dtype rather than a string. -/
structure BitsAndBytesConfig where
  load_in_4bit : Bool := false
  bnb_4bit_quant_type : PyVal := PyVal.str "fp4"
  bnb_4bit_compute_dtype : PyVal := PyVal.none
  use_nested_quant : Bool := false
deriving DecidableEq, Repr

/-- Function `build_bnb_config`, lines 126-132: constructs a `BitsAndBytesConfig`
passing `load_in_4bit := quant_args.load_in_4bit`,
`bnb_4bit_quant_type := quant_args.bnb_4bit_compute_dtype` and
`bnb_4bit_compute_dtype := quant_args.bnb_4bit_compute_dtype`; the
nested-quant flag is not passed at all. -/
def build_bnb_config (quant_args : QuanitzationArguments) : BitsAndBytesConfig :=
  { load_in_4bit := quant_args.load_in_4bit
    bnb_4bit_quant_type := PyVal.dtype quant_args.bnb_4bit_compute_dtype
    bnb_4bit_compute_dtype := PyVal.dtype quant_args.bnb_4bit_compute_dtype }

/-- Record `QloraArguments`, lines 82-104: a flat record with the declared
defaults (the dropout `0.1` is modelled as the rational `1/10`). -/
structure QloraArguments where
  lora_r : Int := 64
  lora_alpha : Int := 16
  lora_dropout : ℚ := 1/10
  bias : String := "none"
  task_type : String := "CAUSAL_LM"
deriving DecidableEq, Repr

/-- Modelled from the spec: the external `LoraConfig` constructor shape,
holding exactly the fields the script passes. -/
structure LoraConfig where
  lora_alpha : Int
  lora_dropout : ℚ
  r : Int
  bias : String
  task_type : String
deriving DecidableEq, Repr

/-- Function `build_lora_config`, lines 134-142: copies `lora_alpha`,
`lora_dropout`, `lora_r` (to `r`), `bias` and `task_type` across. -/
def build_lora_config (qlora_args : QloraArguments) : LoraConfig :=
  { lora_alpha := qlora_args.lora_alpha
    lora_dropout := qlora_args.lora_dropout
    r := qlora_args.lora_r
    bias := qlora_args.bias
    task_type := qlora_args.task_type }

/-- The glob pattern `checkpoint-*` of line 165: an entry name matches
iff it starts with the literal `checkpoint-`. -/
def checkpointGlobMatch (s : String) : Bool :=
  List.isPrefixOf "checkpoint-".data s.data

/-- The checkpoint-discovery step of lines 164-165,
`list(pathlib.Path(training_args.output_dir).glob('checkpoint-*'))`,
as a pure function of the output directory's entry names. -/
def discoverCheckpoints (entries : List String) : List String :=
  entries.filter checkpointGlobMatch

/-- Function `preprocess_data`, lines 117-118: returns the empty dictionary for
every input source and every tokenizer. -/
def preprocess_data {α β : Type} (source : α) (tokenizer : β) : List (String × PyVal) :=
  []

/-! ### Module-level name binding

Executing a Python module runs its top-level statements in order; each
`def` rebinds its name in the module namespace, so a later `def` of the
same name shadows an earlier one. -/

/-- The top-level `def` statements of the module, in source order, each
with the line its definition starts on. -/
def moduleFunctionDefs : List (String × Nat) :=
  [("safe_save_model_for_hf_trainer", 106),
   ("preprocess_data", 117),
   ("finetune", 120),
   ("build_bnb_config", 126),
   ("build_lora_config", 134),
   ("finetune", 144)]

/-- Execute a list of `def` statements in order: each binds its name,
replacing any earlier binding of the same name. -/
def execDefs (defs : List (String × Nat)) : List (String × Nat) :=
  defs.foldl (fun env d => d :: env.eraseP (fun e => e.1 == d.1)) []

/-- Resolve a global function name after the module body has run:
the binding left by the last `def` of that name. -/
def resolveGlobal (n : String) : Option Nat :=
  (execDefs moduleFunctionDefs).lookup n

/-- The `if __name__ == "__main__":` block, line 169-170, invokes the
name `finetune` as resolved in the module namespace. -/
def mainInvokes : Option Nat :=
  resolveGlobal "finetune"

/-! ### Names bound in scope at the checkpoint scan -/

/-- Python builtins the script uses by name. -/
def builtinNames : List String :=
  ["list"]

/-- Names bound by the `import`/`from ... import` statements,
lines 1-21. -/
def importedNames : List String :=
  ["dataclass", "field", "Optional", "Dict", "logging", "nvidia_smi",
   "torch", "load_dataset", "AutoModelForCausalLM", "AutoTokenizer",
   "PreTrainedTokenizer", "BitsAndBytesConfig", "HfArgumentParser",
   "Trainer", "TrainingArguments", "LoraConfig",
   "AutoPeftModelForCausalLM", "SFTTrainer"]

/-- All names bound at module level: imports, the module-level `logger`
assignment (line 23), the class definitions and the function
definitions. -/
def moduleLevelNames : List String :=
  importedNames ++
  ["logger", "ModelArguments", "DataArguments", "ModelTrainingArguments",
   "QuanitzationArguments", "QloraArguments",
   "safe_save_model_for_hf_trainer", "preprocess_data", "finetune",
   "build_bnb_config", "build_lora_config"]

/-- The local names bound inside the second `finetune` by the time
control reaches the checkpoint scan of lines 163-165. -/
def finetuneLocalNamesAtScan : List String :=
  ["parser", "model_args", "data_args", "training_args", "quant_args",
   "qlora_args", "bnb_config", "peft_config", "model", "tokenizer",
   "resume_from_checkpoint"]

/-- Python name resolution at a use site: locals, then module globals,
then builtins; an unbound name raises `NameError`. -/
def resolveName (locals : List String) (n : String) : Except PyErr Unit :=
  if n ∈ locals ∨ n ∈ moduleLevelNames ∨ n ∈ builtinNames then
    Except.ok ()
  else
    Except.error (PyErr.nameError n)

/-- Executing line 164-165,
`checkpoints = list(pathlib.Path(training_args.output_dir).glob('checkpoint-*'))`:
the callee `list` is resolved, then the argument expression resolves
`pathlib` and `training_args` in turn. -/
def execCheckpointScan : Except PyErr Unit := do
  resolveName finetuneLocalNamesAtScan "list"
  resolveName finetuneLocalNamesAtScan "pathlib"
  resolveName finetuneLocalNamesAtScan "training_args"

/-- The second `finetune` (lines 144-165) as a sequence of effects: the
steps delegated to external libraries (argument parsing, model load,
tokenizer load) are abstracted as given outcomes; if they all succeed,
control reaches the checkpoint scan. -/
def finetuneExec (parseStep loadModelStep loadTokenizerStep : Except PyErr Unit) :
    Except PyErr Unit := do
  parseStep
  loadModelStep
  loadTokenizerStep
  execCheckpointScan

/-! ### Statement-level read/write sets of the second `finetune` -/

/-- A statement, abstracted to the local names it (re)binds and the
names it reads. -/
structure PyStmt where
  targets : List String
  reads : List String
deriving DecidableEq, Repr

/-- The statements of the second `finetune` body, lines 145-165, in
order.  The attribute assignment on line 160 binds no local.  The
assignment on line 163 stores the literal `False` and reads nothing. -/
def finetuneSecondBody : List PyStmt :=
  [⟨["parser"],
    ["HfArgumentParser", "ModelArguments", "DataArguments",
     "ModelTrainingArguments", "QuanitzationArguments", "QloraArguments"]⟩,
   ⟨["model_args", "data_args", "training_args", "quant_args", "qlora_args"],
    ["parser"]⟩,
   ⟨["bnb_config"], ["build_bnb_config", "quant_args"]⟩,
   ⟨["peft_config"], ["build_lora_config", "qlora_args"]⟩,
   ⟨["model"], ["AutoModelForCausalLM", "model_args", "bnb_config"]⟩,
   ⟨["tokenizer"], ["AutoTokenizer", "model_args"]⟩,
   ⟨[], ["tokenizer"]⟩,
   ⟨["resume_from_checkpoint"], []⟩,
   ⟨["checkpoints"], ["list", "pathlib", "training_args"]⟩]

/-- The values the two locals of the checkpoint block hold as functions
of the output directory's entries: line 163 assigns the literal
`False`, line 164-165 assigns the glob result. -/
def finetuneLocalsAfterScan (dirEntries : List String) : Bool × List String :=
  (false, discoverCheckpoints dirEntries)

/-! ### `safe_save_model_for_hf_trainer` -/

/-- Calling a Python value: calling a function yields its result;
calling anything else raises `TypeError`. -/
def pyCallValue (v : PyVal) : Except PyErr PyVal :=
  match v with
  | PyVal.func r => Except.ok r
  | _ => Except.error (PyErr.typeError "object is not callable")

/-- Modelled from the spec: on the external trainer's arguments object,
`should_save` is a plain boolean attribute, not a callable method, so
the attribute access of line 112 yields a boolean value. -/
def trainerArgs_should_save (b : Bool) : PyVal :=
  PyVal.bool b

/-- Function `safe_save_model_for_hf_trainer`, lines 106-115: reads the state
dict, then evaluates `trainer.args.should_save()` — a call on the value
of the `should_save` attribute.  Returns the outcome together with
whether the `trainer._save` call of line 115 was reached. -/
def safe_save_model_for_hf_trainer (should_save_attr : PyVal)
    (state_dict : List (String × PyVal)) : Except PyErr Unit × Bool :=
  match pyCallValue should_save_attr with
  | Except.error e => (Except.error e, false)
  | Except.ok v =>
      if v == PyVal.bool true then (Except.ok (), true)
      else (Except.ok (), false)

/-! ### The `ModelTrainingArguments` class body -/

/-- An assignment target: a plain name, or a subscript `base[index]`. -/
inductive AssignTarget
  | name (n : String)
  | subscript (base : String) (index : String)
deriving DecidableEq, Repr

/-- The typing special forms in scope (`Optional`, imported line 2).
Modelled from Python semantics per the spec: assigning to a subscript
of a typing special form cannot execute (`TypeError`). -/
def typingSpecialForms : List String :=
  ["Optional"]

/-- Assigning the (already evaluated) value to one target. -/
def assignToTarget (t : AssignTarget) : Except PyErr Unit :=
  match t with
  | AssignTarget.name _ => Except.ok ()
  | AssignTarget.subscript base _ =>
      if base ∈ typingSpecialForms then
        Except.error (PyErr.typeError "does not support item assignment")
      else
        Except.ok ()

/-- A chained assignment assigns its value to each target from left to
right. -/
def execTargets : List AssignTarget → Except PyErr Unit
  | [] => Except.ok ()
  | t :: ts => do
      assignToTarget t
      execTargets ts

/-- Line 53, `cache_dir = Optional[str] = field(...)`, parses as a
chained assignment with targets `cache_dir` and `Optional[str]` and
value `field(...)`. -/
def cacheDirStmtTargets : List AssignTarget :=
  [AssignTarget.name "cache_dir", AssignTarget.subscript "Optional" "str"]

/-- Executing the `ModelTrainingArguments` class body, lines 48-60: the
`cache_dir` chained assignment (lines 53-56), then the annotated
`model_max_length` assignment (lines 57-60). -/
def execModelTrainingArgumentsBody : Except PyErr Unit := do
  execTargets cacheDirStmtTargets
  execTargets [AssignTarget.name "model_max_length"]

/-! ### Call sites of the two `finetune` definitions -/

/-- The function names called anywhere in the first `finetune`,
lines 120-124. -/
def calleesFinetuneFirst : List String :=
  ["HfArgumentParser", "parse_args_into_dataclasses"]

/-- The function names called anywhere in the second `finetune`,
lines 144-165. -/
def calleesFinetuneSecond : List String :=
  ["HfArgumentParser", "parse_args_into_dataclasses",
   "build_bnb_config", "build_lora_config", "from_pretrained",
   "list", "Path", "glob"]

/-- Sequencing two `Except` computations errors exactly as the first
error encountered; helper for unfolding the `do` blocks. -/
theorem except_bind_ok {ε α β : Type} (x : α) (f : α → Except ε β) :
    (Except.ok x >>= f) = f x :=
  rfl

/-- Unfolded value of the checkpoint-scan step: `pathlib` is bound
neither locally, nor at module level, nor as a builtin, so the scan
raises `NameError`. -/
theorem execCheckpointScan_eq :
    execCheckpointScan = Except.error (PyErr.nameError "pathlib") := by
  rfl

/-- C1 (code defect, evaluated at a concrete input): on an input whose
quant type is `"nf4"`, whose compute dtype is `float16` and whose
nested-quant flag is on, `build_bnb_config` copies `load_in_4bit`, but
fills the quant-type field with the compute dtype `float16` instead of
`"nf4"`, and leaves the nested-quant flag at the default `false`
instead of the input's `true`. -/
theorem build_bnb_config_misroutes_at_input :
    (build_bnb_config
        ⟨true, TorchDtype.float16, "nf4", true⟩).load_in_4bit = true ∧
    (build_bnb_config
        ⟨true, TorchDtype.float16, "nf4", true⟩).bnb_4bit_quant_type =
      PyVal.dtype TorchDtype.float16 ∧
    (build_bnb_config
        ⟨true, TorchDtype.float16, "nf4", true⟩).bnb_4bit_quant_type ≠
      PyVal.str "nf4" ∧
    (build_bnb_config
        ⟨true, TorchDtype.float16, "nf4", true⟩).use_nested_quant = false := by
  refine ⟨rfl, rfl, ?_, rfl⟩
  decide

/-- C2: `build_lora_config` preserves rank, alpha, dropout, bias policy
and task type of its input unchanged. -/
theorem build_lora_config_preserves_fields (q : QloraArguments) :
    (build_lora_config q).r = q.lora_r ∧
    (build_lora_config q).lora_alpha = q.lora_alpha ∧
    (build_lora_config q).lora_dropout = q.lora_dropout ∧
    (build_lora_config q).bias = q.bias ∧
    (build_lora_config q).task_type = q.task_type :=
  ⟨rfl, rfl, rfl, rfl, rfl⟩

/-- C3: for a directory whose entries contain `N` names matching
`checkpoint-*` and `M` that do not, checkpoint discovery returns
exactly `N` paths — the matching ones and no others. -/
theorem discoverCheckpoints_exactly_matching (entries : List String) (N M : Nat)
    (hN : (entries.filter checkpointGlobMatch).length = N)
    (hM : (entries.filter (fun e => !checkpointGlobMatch e)).length = M) :
    (discoverCheckpoints entries).length = N ∧
    ∀ p, p ∈ discoverCheckpoints entries ↔
      p ∈ entries ∧ checkpointGlobMatch p = true := by
  refine ⟨hN, fun p => ?_⟩
  simp [discoverCheckpoints, List.mem_filter]

/-- Witness for C3 at a concrete directory with two matching entries
and one non-matching entry. -/
theorem discoverCheckpoints_exactly_matching_witness :
    (discoverCheckpoints ["checkpoint-1", "notes.txt", "checkpoint-200"]).length = 2 ∧
    ∀ p, p ∈ discoverCheckpoints ["checkpoint-1", "notes.txt", "checkpoint-200"] ↔
      p ∈ ["checkpoint-1", "notes.txt", "checkpoint-200"] ∧
      checkpointGlobMatch p = true :=
  discoverCheckpoints_exactly_matching
    ["checkpoint-1", "notes.txt", "checkpoint-200"] 2 1 (by decide) (by decide)

/-- C4: the module contains two `def`s of `finetune` (at lines 120 and
144); after the module body runs, the name `finetune` — the one the
`__main__` block invokes — denotes the second definition (line 144),
never the first (line 120). -/
theorem finetune_second_def_shadows_first :
    moduleFunctionDefs.countP (fun d => d.1 == "finetune") = 2 ∧
    ("finetune", 120) ∈ moduleFunctionDefs ∧
    ("finetune", 144) ∈ moduleFunctionDefs ∧
    resolveGlobal "finetune" = some 144 ∧
    mainInvokes = some 144 ∧
    mainInvokes ≠ some 120 := by
  decide

/-- C5: for every possible contents of the output directory the resume
flag computed by the entry function is `false`; the statement assigning
it (index 7) precedes the scan (index 8); no statement from the scan
onwards reads or rebinds `resume_from_checkpoint`; and no statement of
the body ever reads `checkpoints`. -/
theorem resume_flag_never_consulted :
    (∀ dirEntries : List String, (finetuneLocalsAfterScan dirEntries).1 = false) ∧
    (finetuneSecondBody.take 8).length = 8 ∧
    ((finetuneSecondBody.take 8).getLast?.map PyStmt.targets) =
      some ["resume_from_checkpoint"] ∧
    ((finetuneSecondBody.drop 8).all fun s =>
      !(s.reads.contains "resume_from_checkpoint") &&
      !(s.targets.contains "resume_from_checkpoint")) = true ∧
    (finetuneSecondBody.all fun s => !(s.reads.contains "checkpoints")) = true := by
  exact ⟨fun _ => rfl, by decide, by decide, by decide, by decide⟩

/-- C6: `pathlib` is bound nowhere — not a local of `finetune`, not a
module-level name, not a used builtin — so every execution of the entry
function that reaches the checkpoint scan fails with
`NameError("pathlib")`, and no execution of the entry function returns
successfully, whatever the outcomes of the external steps before the
scan. -/
theorem finetune_fails_unbound_pathlib :
    ("pathlib" ∉ finetuneLocalNamesAtScan ∧
     "pathlib" ∉ moduleLevelNames ∧
     "pathlib" ∉ builtinNames) ∧
    execCheckpointScan = Except.error (PyErr.nameError "pathlib") ∧
    ∀ p m t : Except PyErr Unit, finetuneExec p m t ≠ Except.ok () := by
  refine ⟨⟨by decide, by decide, by decide⟩, execCheckpointScan_eq, ?_⟩
  intro p m t h
  cases p with
  | error e => exact Except.noConfusion h
  | ok u =>
    cases m with
    | error e => exact Except.noConfusion h
    | ok v =>
      cases t with
      | error e => exact Except.noConfusion h
      | ok w =>
        rw [finetuneExec, except_bind_ok, except_bind_ok, except_bind_ok,
          execCheckpointScan_eq] at h
        exact Except.noConfusion h

/-- C7: `preprocess_data` returns the empty dictionary for every source
and every tokenizer, and neither definition of the entry function ever
calls it. -/
theorem preprocess_data_empty_and_never_called :
    (∀ (α β : Type) (source : α) (tokenizer : β),
      preprocess_data source tokenizer = []) ∧
    "preprocess_data" ∉ calleesFinetuneFirst ∧
    "preprocess_data" ∉ calleesFinetuneSecond :=
  ⟨fun _ _ _ _ => rfl, by decide, by decide⟩

/-- C8: whatever boolean the `should_save` attribute holds and whatever
the state dict is, `safe_save_model_for_hf_trainer` fails with
`TypeError` when it calls `trainer.args.should_save()` — the attribute
is not callable — and the `trainer._save` call is never reached. -/
theorem safe_save_always_type_errors (b : Bool)
    (state_dict : List (String × PyVal)) :
    (safe_save_model_for_hf_trainer (trainerArgs_should_save b) state_dict).1 =
      Except.error (PyErr.typeError "object is not callable") ∧
    (safe_save_model_for_hf_trainer (trainerArgs_should_save b) state_dict).2 =
      false :=
  ⟨rfl, rfl⟩

/-- C9: the `cache_dir` line of `ModelTrainingArguments` is a chained
assignment whose second target is the subscripted `Optional[str]`;
assigning to a subscript of the typing special form raises `TypeError`,
so the class body cannot execute. -/
theorem modelTrainingArguments_body_cannot_execute :
    execTargets cacheDirStmtTargets =
      Except.error (PyErr.typeError "does not support item assignment") ∧
    execModelTrainingArgumentsBody =
      Except.error (PyErr.typeError "does not support item assignment") :=
  ⟨rfl, rfl⟩

/-- C10: `build_bnb_config` reads only `load_in_4bit` and
`bnb_4bit_compute_dtype`: two inputs agreeing on those two fields yield
equal configurations, however they differ on `bnb_4bit_quant_type` and
`use_nested_quant`. -/
theorem build_bnb_config_ignores_quant_type_and_nested
    (q1 q2 : QuanitzationArguments)
    (h1 : q1.load_in_4bit = q2.load_in_4bit)
    (h2 : q1.bnb_4bit_compute_dtype = q2.bnb_4bit_compute_dtype) :
    build_bnb_config q1 = build_bnb_config q2 := by
  simp [build_bnb_config, h1, h2]

/-- Witness for C10: two concrete inputs differing in quant type and
nested-quant flag produce the same configuration. -/
theorem build_bnb_config_ignores_quant_type_and_nested_witness :
    build_bnb_config ⟨true, TorchDtype.float16, "nf4", false⟩ =
      build_bnb_config ⟨true, TorchDtype.float16, "fp4", true⟩ :=
  build_bnb_config_ignores_quant_type_and_nested
    ⟨true, TorchDtype.float16, "nf4", false⟩
    ⟨true, TorchDtype.float16, "fp4", true⟩ (by decide) (by decide)

end Finetune
